import Mathlib

/-!
# Verification of the WCP CSI controller core

Shallow embedding of `pkg/csi/service/wcp/controller.go` (vsphere-csi-driver,
WCP flavor): the shared-datastore resolver, the configuration reload path,
the watcher event loop, and the volume lifecycle verbs, together with proofs
of the specified properties.
-/

set_option autoImplicit false

namespace WcpController

/-! ## Datastore resolver (`getSharedDatastoresInPodVMK8SCluster`)

`DatastoreInfo` carries the identity key (`Info.Url` in the source) plus a
non-key payload field (`Info.Name`), so that identity-key equality and
structural equality can be told apart. A `HostSystem` is one compute host of
the cluster together with the outcome of its `GetAllAccessibleDatastores`
remote call (which the source may see fail). -/

structure DatastoreInfo where
  url : String
  name : String
  deriving DecidableEq

deriving instance DecidableEq for Except

structure HostSystem where
  name : String
  datastores : Except String (List DatastoreInfo)
  deriving DecidableEq

/-- The inner loop of the intersection in the source: scan `accessible` for a
datastore whose `Info.Url` equals `sharedDs.Info.Url` (with `break` on the
first hit, i.e. an existence test). -/
def findMatch (sharedDs : DatastoreInfo) : List DatastoreInfo → Bool
  | [] => false
  | accessibleDs :: rest =>
    if sharedDs.url == accessibleDs.url then true else findMatch sharedDs rest

/-- The intersection step of the source: keep each element of the running
shared set (`sharedDatastores`) whose URL occurs in `accessible`, appending
the *shared* element, in the running set's order. -/
def intersectShared (shared accessible : List DatastoreInfo) : List DatastoreInfo
  :=
  match shared with
  | [] => []
  | sharedDs :: rest =>
    if findMatch sharedDs accessible then
      sharedDs :: intersectShared rest accessible
    else
      intersectShared rest accessible

/-- Error message of the empty-intersection short-circuit in the source
(`fmt.Errorf("No shared datastores found in the Kubernetes cluster for host: %+v", host)`). -/
def noCommonDatastoresMsg (host : HostSystem) : String :=
  "No shared datastores found in the Kubernetes cluster for host: " ++ host.name

/-- Error message of the empty host list check in the source. -/
def noHostsMsg : String := "Empty List of hosts returned from VC"

/-- One update of the running shared set in the loop body: seed it with the
host's accessible set when it is still empty (`len(sharedDatastores) == 0`),
otherwise intersect. -/
def updateSharedDatastores (shared accessibleDatastores : List DatastoreInfo) :
    List DatastoreInfo :=
  if shared.isEmpty then accessibleDatastores
  else intersectShared shared accessibleDatastores

/-- The `for _, host := range hosts` loop of
`getSharedDatastoresInPodVMK8SCluster`. The first component is the value the
Go function returns; the second component records, in order, the hosts whose
`GetAllAccessibleDatastores` call was issued (instrumentation used to state
the short-circuit property; it does not influence the result). -/
def getSharedDatastoresLoop :
    List DatastoreInfo → List HostSystem →
      Except String (List DatastoreInfo) × List String
  | shared, [] => (.ok shared, [])
  | shared, host :: rest =>
    match host.datastores with
    | .error e => (.error e, [host.name])
    | .ok accessibleDatastores =>
      if (updateSharedDatastores shared accessibleDatastores).isEmpty then
        (.error (noCommonDatastoresMsg host), [host.name])
      else
        let r :=
          getSharedDatastoresLoop
            (updateSharedDatastores shared accessibleDatastores) rest
        (r.1, host.name :: r.2)

/-- Function `getSharedDatastoresInPodVMK8SCluster` over the cluster's host list:
fail with `noHostsMsg` on an empty host list, otherwise run the intersection
loop seeded from the empty running set (the first processed host seeds it). -/
def getSharedDatastoresInPodVMK8SCluster (hosts : List HostSystem) :
    Except String (List DatastoreInfo) × List String :=
  if hosts.isEmpty then (.error noHostsMsg, [])
  else getSharedDatastoresLoop [] hosts

/-- URL-key membership: does some element of `l` carry the URL `u`? -/
def urlMem (u : String) (l : List DatastoreInfo) : Bool :=
  l.any (fun d => d.url == u)

/-- Accessible set of a host whose fetch succeeded (`[]` on a failed fetch;
only used under hypotheses that rule the failure out). -/
def accOf (h : HostSystem) : List DatastoreInfo :=
  match h.datastores with
  | .ok a => a
  | .error _ => []

theorem findMatch_eq_urlMem (d : DatastoreInfo) (a : List DatastoreInfo) :
    findMatch d a = urlMem d.url a := by
  induction a with
  | nil => rfl
  | cons x rest ih =>
    simp only [findMatch, urlMem, List.any_cons, ← ih]
    by_cases h : d.url = x.url
    · simp [h]
    · have hd : (d.url == x.url) = false := beq_eq_false_iff_ne.mpr h
      have hx : (x.url == d.url) = false := beq_eq_false_iff_ne.mpr (Ne.symm h)
      simp only [hd, hx, Bool.false_or, if_false]
      exact ih

theorem intersectShared_eq_filter (s a : List DatastoreInfo) :
    intersectShared s a = s.filter (fun d => findMatch d a) := by
  induction s with
  | nil => rfl
  | cons d rest ih =>
    simp only [intersectShared, List.filter_cons, ih]

theorem urlMem_intersectShared (u : String) (s a : List DatastoreInfo) :
    urlMem u (intersectShared s a) = (urlMem u s && urlMem u a) := by
  induction s with
  | nil => rfl
  | cons d rest ih =>
    have hcons : urlMem u (d :: rest) = ((d.url == u) || urlMem u rest) := by
      simp [urlMem]
    by_cases hm : findMatch d a = true
    · have hstep : intersectShared (d :: rest) a = d :: intersectShared rest a := by
        simp [intersectShared, hm]
      have hcons2 : urlMem u (d :: intersectShared rest a) =
          ((d.url == u) || urlMem u (intersectShared rest a)) := by
        simp [urlMem]
      rw [hstep, hcons2, hcons, ih]
      by_cases hu : d.url = u
      · have hb : (d.url == u) = true := beq_iff_eq.mpr hu
        have ha : urlMem u a = true := by
          rw [← hu, ← findMatch_eq_urlMem]; exact hm
        simp [hb, ha]
      · have hb : (d.url == u) = false := beq_eq_false_iff_ne.mpr hu
        simp [hb]
    · have hstep : intersectShared (d :: rest) a = intersectShared rest a := by
        simp [intersectShared, hm]
      rw [hstep, ih, hcons]
      by_cases hu : d.url = u
      · have ha : urlMem u a = false := by
          simp only [Bool.not_eq_true] at hm
          rw [← hu, ← findMatch_eq_urlMem]; exact hm
        simp [ha]
      · have hb : (d.url == u) = false := beq_eq_false_iff_ne.mpr hu
        simp [hb]

theorem urlMem_isEmpty_false {u : String} {l : List DatastoreInfo}
    (h : urlMem u l = true) : l.isEmpty = false := by
  cases l with
  | nil => simp [urlMem] at h
  | cons d rest => rfl

theorem urlMem_of_mem {d : DatastoreInfo} {l : List DatastoreInfo}
    (h : d ∈ l) : urlMem d.url l = true := by
  simp only [urlMem, List.any_eq_true]
  exact ⟨d, h, by simp⟩

theorem urlMem_updateSharedDatastores {shared : List DatastoreInfo}
    (u : String) (acc : List DatastoreInfo) (hne : shared.isEmpty = false) :
    urlMem u (updateSharedDatastores shared acc)
      = (urlMem u shared && urlMem u acc) := by
  unfold updateSharedDatastores
  rw [if_neg (by simp [hne])]
  exact urlMem_intersectShared u shared acc

theorem loop_nil (shared : List DatastoreInfo) :
    getSharedDatastoresLoop shared [] = (.ok shared, []) := rfl

theorem loop_cons_fetchErr {host : HostSystem} {e : String}
    (shared : List DatastoreInfo) (rest : List HostSystem)
    (hds : host.datastores = .error e) :
    getSharedDatastoresLoop shared (host :: rest) = (.error e, [host.name]) := by
  simp [getSharedDatastoresLoop, hds]

theorem loop_cons_empty {host : HostSystem} {acc : List DatastoreInfo}
    (shared : List DatastoreInfo) (rest : List HostSystem)
    (hds : host.datastores = .ok acc)
    (he : (updateSharedDatastores shared acc).isEmpty = true) :
    getSharedDatastoresLoop shared (host :: rest)
      = (.error (noCommonDatastoresMsg host), [host.name]) := by
  simp [getSharedDatastoresLoop, hds, he]

theorem loop_cons_ok {host : HostSystem} {acc : List DatastoreInfo}
    (shared : List DatastoreInfo) (rest : List HostSystem)
    (hds : host.datastores = .ok acc)
    (he : (updateSharedDatastores shared acc).isEmpty = false) :
    getSharedDatastoresLoop shared (host :: rest)
      = ((getSharedDatastoresLoop (updateSharedDatastores shared acc) rest).1,
         host.name ::
           (getSharedDatastoresLoop (updateSharedDatastores shared acc) rest).2)
    := by
  simp [getSharedDatastoresLoop, hds, he]

theorem loop_ok_facts :
    ∀ (l : List HostSystem) (shared res : List DatastoreInfo),
    shared.isEmpty = false →
    (getSharedDatastoresLoop shared l).1 = .ok res →
    res.isEmpty = false ∧
    (∀ h ∈ l, ∃ a, h.datastores = .ok a) ∧
    (∀ u, urlMem u res
      = (urlMem u shared && l.all (fun h => urlMem u (accOf h)))) := by
  intro l
  induction l with
  | nil =>
    intro shared res hne hrun
    have hsr : shared = res := by simpa [loop_nil] using hrun
    subst hsr
    exact ⟨hne, by simp, fun u => by simp⟩
  | cons host rest ih =>
    intro shared res hne hrun
    cases hds : host.datastores with
    | error e =>
      rw [loop_cons_fetchErr shared rest hds] at hrun
      simp at hrun
    | ok acc =>
      by_cases he : (updateSharedDatastores shared acc).isEmpty
      · rw [loop_cons_empty shared rest hds he] at hrun
        simp at hrun
      · have he' : (updateSharedDatastores shared acc).isEmpty = false := by
          simpa using he
        rw [loop_cons_ok shared rest hds he'] at hrun
        obtain ⟨hres, hall, hurl⟩ :=
          ih (updateSharedDatastores shared acc) res he' hrun
        refine ⟨hres, ?_, ?_⟩
        · intro h hh
          rcases List.mem_cons.mp hh with hh | hh
          · exact ⟨acc, hh ▸ hds⟩
          · exact hall h hh
        · intro u
          rw [hurl u, urlMem_updateSharedDatastores u acc hne]
          have haccOf : accOf host = acc := by simp [accOf, hds]
          simp [List.all_cons, haccOf, Bool.and_assoc]

theorem loop_ok_filter :
    ∀ (l : List HostSystem) (shared res : List DatastoreInfo),
    shared.isEmpty = false →
    (getSharedDatastoresLoop shared l).1 = .ok res →
    res = shared.filter (fun d => l.all (fun h => urlMem d.url (accOf h))) := by
  intro l
  induction l with
  | nil =>
    intro shared res hne hrun
    have hsr : shared = res := by simpa [loop_nil] using hrun
    subst hsr
    simp
  | cons host rest ih =>
    intro shared res hne hrun
    cases hds : host.datastores with
    | error e =>
      rw [loop_cons_fetchErr shared rest hds] at hrun
      simp at hrun
    | ok acc =>
      by_cases he : (updateSharedDatastores shared acc).isEmpty
      · rw [loop_cons_empty shared rest hds he] at hrun
        simp at hrun
      · have he' : (updateSharedDatastores shared acc).isEmpty = false := by
          simpa using he
        rw [loop_cons_ok shared rest hds he'] at hrun
        have hupd : updateSharedDatastores shared acc
            = intersectShared shared acc := by
          unfold updateSharedDatastores
          rw [if_neg (by simp [hne])]
        have hres := ih (updateSharedDatastores shared acc) res he' hrun
        rw [hupd, intersectShared_eq_filter, List.filter_filter] at hres
        rw [hres]
        apply List.filter_congr
        intro d _
        have haccOf : accOf host = acc := by simp [accOf, hds]
        simp only [List.all_cons, haccOf, findMatch_eq_urlMem]
        exact Bool.and_comm _ _

theorem loop_ok_of :
    ∀ (l : List HostSystem) (shared : List DatastoreInfo) (u : String),
    shared.isEmpty = false →
    (∀ h ∈ l, ∃ a, h.datastores = .ok a) →
    urlMem u shared = true →
    (∀ h ∈ l, urlMem u (accOf h) = true) →
    ∃ res, (getSharedDatastoresLoop shared l).1 = .ok res := by
  intro l
  induction l with
  | nil =>
    intro shared u hne hok hu hall
    exact ⟨shared, by simp [loop_nil]⟩
  | cons host rest ih =>
    intro shared u hne hok hu hall
    obtain ⟨acc, hds⟩ := hok host (by simp)
    have hacc : urlMem u acc = true := by
      have hm := hall host (by simp)
      simpa [accOf, hds] using hm
    have hupd : urlMem u (updateSharedDatastores shared acc) = true := by
      rw [urlMem_updateSharedDatastores u acc hne, hu, hacc]
      rfl
    have he' : (updateSharedDatastores shared acc).isEmpty = false :=
      urlMem_isEmpty_false hupd
    rw [loop_cons_ok shared rest hds he']
    exact ih (updateSharedDatastores shared acc) u he'
      (fun h hh => hok h (by simp [hh])) hupd
      (fun h hh => hall h (by simp [hh]))

theorem loop_append_ok :
    ∀ (l1 : List HostSystem) (shared s : List DatastoreInfo)
      (l2 : List HostSystem),
    (getSharedDatastoresLoop shared l1).1 = .ok s →
    getSharedDatastoresLoop shared (l1 ++ l2)
      = ((getSharedDatastoresLoop s l2).1,
         (getSharedDatastoresLoop shared l1).2
           ++ (getSharedDatastoresLoop s l2).2) := by
  intro l1
  induction l1 with
  | nil =>
    intro shared s l2 hrun
    have hsr : shared = s := by simpa [loop_nil] using hrun
    subst hsr
    simp [loop_nil]
  | cons host l1' ih =>
    intro shared s l2 hrun
    cases hds : host.datastores with
    | error e =>
      rw [loop_cons_fetchErr shared l1' hds] at hrun
      simp at hrun
    | ok acc =>
      by_cases he : (updateSharedDatastores shared acc).isEmpty
      · rw [loop_cons_empty shared l1' hds he] at hrun
        simp at hrun
      · have he' : (updateSharedDatastores shared acc).isEmpty = false := by
          simpa using he
        rw [loop_cons_ok shared l1' hds he'] at hrun
        have hcons : (host :: l1') ++ l2 = host :: (l1' ++ l2) := rfl
        rw [hcons, loop_cons_ok shared (l1' ++ l2) hds he',
          ih (updateSharedDatastores shared acc) s l2 hrun,
          loop_cons_ok shared l1' hds he']
        simp

theorem update_nil_seed (acc : List DatastoreInfo) :
    updateSharedDatastores [] acc = acc := rfl

theorem getShared_cons (h1 : HostSystem) (rest : List HostSystem) :
    getSharedDatastoresInPodVMK8SCluster (h1 :: rest)
      = getSharedDatastoresLoop [] (h1 :: rest) := by
  simp [getSharedDatastoresInPodVMK8SCluster]

theorem getShared_ok_facts {hosts : List HostSystem} {res : List DatastoreInfo}
    (hrun : (getSharedDatastoresInPodVMK8SCluster hosts).1 = .ok res) :
    hosts ≠ [] ∧ res.isEmpty = false ∧
    (∀ h ∈ hosts, ∃ a, h.datastores = .ok a) ∧
    (∀ u, urlMem u res = hosts.all (fun h => urlMem u (accOf h))) := by
  cases hosts with
  | nil => simp [getSharedDatastoresInPodVMK8SCluster, noHostsMsg] at hrun
  | cons h1 rest =>
    rw [getShared_cons] at hrun
    cases hds : h1.datastores with
    | error e =>
      rw [loop_cons_fetchErr [] rest hds] at hrun
      simp at hrun
    | ok acc1 =>
      by_cases he : (updateSharedDatastores [] acc1).isEmpty
      · rw [loop_cons_empty [] rest hds he] at hrun
        simp at hrun
      · have he' : acc1.isEmpty = false := by
          simpa [update_nil_seed] using he
        rw [loop_cons_ok [] rest hds (by simpa [update_nil_seed] using he),
          update_nil_seed] at hrun
        obtain ⟨hres, hall, hurl⟩ := loop_ok_facts rest acc1 res he' hrun
        refine ⟨by simp, hres, ?_, ?_⟩
        · intro h hh
          rcases List.mem_cons.mp hh with hh | hh
          · exact ⟨acc1, hh ▸ hds⟩
          · exact hall h hh
        · intro u
          rw [hurl u]
          have haccOf : accOf h1 = acc1 := by simp [accOf, hds]
          simp [List.all_cons, haccOf]

theorem getShared_ok_of {hosts : List HostSystem} {u : String}
    (hne : hosts ≠ [])
    (hok : ∀ h ∈ hosts, ∃ a, h.datastores = .ok a)
    (hall : ∀ h ∈ hosts, urlMem u (accOf h) = true) :
    ∃ res, (getSharedDatastoresInPodVMK8SCluster hosts).1 = .ok res := by
  cases hosts with
  | nil => exact absurd rfl hne
  | cons h1 rest =>
    obtain ⟨acc1, hds⟩ := hok h1 (by simp)
    have hacc1 : urlMem u acc1 = true := by
      have hm := hall h1 (by simp)
      simpa [accOf, hds] using hm
    have he' : acc1.isEmpty = false := urlMem_isEmpty_false hacc1
    have heu : (updateSharedDatastores [] acc1).isEmpty = false := by
      simpa [update_nil_seed] using he'
    rw [getShared_cons, loop_cons_ok [] rest hds heu, update_nil_seed]
    exact loop_ok_of rest acc1 u he'
      (fun h hh => hok h (by simp [hh])) hacc1
      (fun h hh => hall h (by simp [hh]))

theorem all_congr_perm {α : Type} {l l' : List α} (p : α → Bool)
    (h : List.Perm l l') : l.all p = l'.all p := by
  by_cases hb : l.all p = true
  · have hmem := List.all_eq_true.mp hb
    have hb' : l'.all p = true :=
      List.all_eq_true.mpr (fun x hx => hmem x (h.mem_iff.mpr hx))
    rw [hb, hb']
  · have hb' : ¬l'.all p = true := fun hc =>
      hb (List.all_eq_true.mpr
        (fun x hx => (List.all_eq_true.mp hc) x (h.mem_iff.mp hx)))
    simp only [Bool.not_eq_true] at hb hb'
    rw [hb, hb']

/-! ### Concrete fixtures for the resolver claims

`dsBalt`/`dsCalt` carry the same URL keys as `dsB`/`dsC` but different
non-key payloads, exercising identity-key (not structural) equality. -/

def dsA : DatastoreInfo := ⟨"ds:///vmfs/volumes/a/", "datastore-A"⟩

def dsB : DatastoreInfo := ⟨"ds:///vmfs/volumes/b/", "datastore-B"⟩

def dsC : DatastoreInfo := ⟨"ds:///vmfs/volumes/c/", "datastore-C"⟩

def dsBalt : DatastoreInfo := ⟨"ds:///vmfs/volumes/b/", "datastore-B-alt"⟩

def dsCalt : DatastoreInfo := ⟨"ds:///vmfs/volumes/c/", "datastore-C-alt"⟩

def dsD : DatastoreInfo := ⟨"ds:///vmfs/volumes/d/", "datastore-D"⟩

def host1 : HostSystem := ⟨"host-1", .ok [dsA, dsB, dsC]⟩

def host2 : HostSystem := ⟨"host-2", .ok [dsBalt, dsCalt, dsD]⟩

def host3A : HostSystem := ⟨"host-1", .ok [dsA]⟩

def host3B : HostSystem := ⟨"host-2", .ok [dsD]⟩

def host3C : HostSystem := ⟨"host-3", .error "fetch never issued"⟩

def hostEmptyDs : HostSystem := ⟨"host-empty", .ok []⟩

/-- The `.ok` payload of a resolution result, `none` on error (used to state that
an errored resolution returns no datastore list at all). -/
def exceptOkList : Except String (List DatastoreInfo) →
    Option (List DatastoreInfo)
  | .ok l => some l
  | .error _ => none

/-- C2: for a cluster whose resolution succeeds, the result is exactly the
first host's accessible set filtered by URL-key membership in every
subsequent host's accessible set — i.e. the intersection is keyed on the URL
only and the output preserves the running shared set's order (it is a
sublist of the first host's set, never re-sorted). -/
theorem claim_C2_stable_url_intersection
    (h1 : HostSystem) (rest : List HostSystem)
    (acc1 res : List DatastoreInfo)
    (hds : h1.datastores = .ok acc1)
    (hrun : (getSharedDatastoresInPodVMK8SCluster (h1 :: rest)).1 = .ok res) :
    res = acc1.filter (fun d => rest.all (fun h => urlMem d.url (accOf h)))
      ∧ List.Sublist res acc1 := by
  rw [getShared_cons] at hrun
  by_cases he : (updateSharedDatastores [] acc1).isEmpty
  · rw [loop_cons_empty [] rest hds he] at hrun
    simp at hrun
  · have he' : acc1.isEmpty = false := by simpa [update_nil_seed] using he
    rw [loop_cons_ok [] rest hds (by simpa [update_nil_seed] using he),
      update_nil_seed] at hrun
    have hfil := loop_ok_filter rest acc1 res he' hrun
    refine ⟨hfil, ?_⟩
    rw [hfil]
    exact List.filter_sublist acc1

/-- Witness for C2: hosts H1 with datastores [A, B, C] and H2 with
[B', C', D] (same URLs as B, C under different names) resolve to exactly
[B, C], in that order, taken from H1's list. -/
theorem claim_C2_witness :
    host1.datastores = .ok [dsA, dsB, dsC] ∧
    (getSharedDatastoresInPodVMK8SCluster [host1, host2]).1 = .ok [dsB, dsC] ∧
    ([dsB, dsC]
        = [dsA, dsB, dsC].filter
            (fun d => [host2].all (fun h => urlMem d.url (accOf h)))
      ∧ List.Sublist [dsB, dsC] [dsA, dsB, dsC]) :=
  ⟨rfl, rfl,
    claim_C2_stable_url_intersection host1 [host2] [dsA, dsB, dsC]
      [dsB, dsC] rfl rfl⟩

/-- C3: resolution fails fast — an empty host list yields the `NoHosts`
error before any accessible-set fetch (no host name is ever recorded as
fetched), and as soon as the running shared set becomes empty at some host,
resolution stops with the `NoCommonDatastores` error naming that host,
having fetched only the hosts up to and including it (none of the hosts
after it), so no partial list is ever returned. -/
theorem claim_C3_fail_fast :
    (getSharedDatastoresInPodVMK8SCluster [] = (.error noHostsMsg, [])) ∧
    (∀ (pre : List HostSystem) (h : HostSystem) (post : List HostSystem)
       (s acc : List DatastoreInfo),
     (getSharedDatastoresLoop [] pre).1 = .ok s →
     h.datastores = .ok acc →
     (updateSharedDatastores s acc).isEmpty = true →
     getSharedDatastoresInPodVMK8SCluster (pre ++ h :: post)
       = (.error (noCommonDatastoresMsg h),
          (getSharedDatastoresLoop [] pre).2 ++ [h.name])) := by
  refine ⟨rfl, ?_⟩
  intro pre h post s acc hpre hds he
  have hne : (pre ++ h :: post).isEmpty = false := by cases pre <;> rfl
  have hunfold : getSharedDatastoresInPodVMK8SCluster (pre ++ h :: post)
      = getSharedDatastoresLoop [] (pre ++ h :: post) := by
    simp [getSharedDatastoresInPodVMK8SCluster, hne]
  rw [hunfold, loop_append_ok pre [] s (h :: post) hpre,
    loop_cons_empty s post hds he]

/-- Witness for C3: hosts [host-1 ⟼ [A], host-2 ⟼ [D], host-3 ⟼ fetch
error]: the intersection empties at host-2, the error names host-2, and
host-3 is never fetched (its fetch would have failed). -/
theorem claim_C3_witness :
    (getSharedDatastoresLoop [] [host3A]).1 = .ok [dsA] ∧
    host3B.datastores = .ok [dsD] ∧
    (updateSharedDatastores [dsA] [dsD]).isEmpty = true ∧
    getSharedDatastoresInPodVMK8SCluster [host3A, host3B, host3C]
      = (.error (noCommonDatastoresMsg host3B), ["host-1", "host-2"]) :=
  ⟨rfl, rfl, rfl,
    claim_C3_fail_fast.2 [host3A] host3B [host3C] [dsA] [dsD] rfl rfl rfl⟩

/-- C4 counterexample: for a cluster with exactly one host whose accessible
set is empty, resolution does not return that host's (empty) accessible set:
it fails with the `NoCommonDatastores` error, refuting the claim's universal
"returns exactly that host's accessible set" at this input. -/
theorem claim_C4_counterexample :
    (getSharedDatastoresInPodVMK8SCluster [hostEmptyDs]).1
      = .error (noCommonDatastoresMsg hostEmptyDs) ∧
    exceptOkList (getSharedDatastoresInPodVMK8SCluster [hostEmptyDs]).1
      = none ∧
    decide ((getSharedDatastoresInPodVMK8SCluster [hostEmptyDs]).1
      = .ok []) = false :=
  ⟨rfl, rfl, by decide⟩

/-- C4 (amended): for every cluster with exactly one host whose accessible
set was fetched successfully and is nonempty, resolution returns exactly
that host's accessible set, in its original order, with no intersection
step applied. -/
theorem claim_C4_single_host (h : HostSystem) (acc : List DatastoreInfo)
    (hds : h.datastores = .ok acc) (hne : acc.isEmpty = false) :
    getSharedDatastoresInPodVMK8SCluster [h] = (.ok acc, [h.name]) := by
  have heu : (updateSharedDatastores [] acc).isEmpty = false := by
    simpa [update_nil_seed] using hne
  rw [getShared_cons, loop_cons_ok [] [] hds heu, update_nil_seed, loop_nil]

/-- Witness for C4 (amended): a single host with datastores [A, B, C] is
resolved to exactly [A, B, C]. -/
theorem claim_C4_witness :
    host1.datastores = .ok [dsA, dsB, dsC] ∧
    ([dsA, dsB, dsC] : List DatastoreInfo).isEmpty = false ∧
    getSharedDatastoresInPodVMK8SCluster [host1]
      = (.ok [dsA, dsB, dsC], ["host-1"]) :=
  ⟨rfl, rfl, claim_C4_single_host host1 [dsA, dsB, dsC] rfl rfl⟩

/-- C7: the set of datastore URL keys of a successful resolution is
independent of the order in which the hosts are visited: if resolution
succeeds on `hosts`, it also succeeds on any permutation `hosts'`, and the
two results contain exactly the same URL keys (though possibly in the order
of a different first host). -/
theorem claim_C7_order_independent_keys
    (hosts hosts' : List HostSystem) (res : List DatastoreInfo)
    (hperm : List.Perm hosts hosts')
    (hrun : (getSharedDatastoresInPodVMK8SCluster hosts).1 = .ok res) :
    ∃ res', (getSharedDatastoresInPodVMK8SCluster hosts').1 = .ok res' ∧
      ∀ u, urlMem u res = urlMem u res' := by
  obtain ⟨hne, hresne, hok, hurl⟩ := getShared_ok_facts hrun
  have hex : ∃ d, d ∈ res := by
    cases res with
    | nil => simp at hresne
    | cons d rest => exact ⟨d, by simp⟩
  obtain ⟨d, hd⟩ := hex
  have hall0 : hosts.all (fun h => urlMem d.url (accOf h)) = true := by
    rw [← hurl d.url]
    exact urlMem_of_mem hd
  have hall0' : ∀ h ∈ hosts, urlMem d.url (accOf h) = true :=
    List.all_eq_true.mp hall0
  have hne' : hosts' ≠ [] := by
    intro hnil
    exact hne (List.Perm.eq_nil (hnil ▸ hperm))
  have hok' : ∀ h ∈ hosts', ∃ a, h.datastores = .ok a :=
    fun h hh => hok h (hperm.mem_iff.mpr hh)
  have hall' : ∀ h ∈ hosts', urlMem d.url (accOf h) = true :=
    fun h hh => hall0' h (hperm.mem_iff.mpr hh)
  obtain ⟨res', hrun'⟩ := getShared_ok_of hne' hok' hall'
  refine ⟨res', hrun', ?_⟩
  intro u
  obtain ⟨_, _, _, hurl'⟩ := getShared_ok_facts hrun'
  rw [hurl u, hurl' u]
  exact all_congr_perm _ hperm

/-- Witness for C7: visiting [H1, H2] yields [B, C] and visiting [H2, H1]
also succeeds with the same URL-key set. -/
theorem claim_C7_witness :
    ((getSharedDatastoresInPodVMK8SCluster [host1, host2]).1
      = .ok [dsB, dsC]) ∧
    (∃ res', (getSharedDatastoresInPodVMK8SCluster [host2, host1]).1
        = .ok res' ∧
      ∀ u, urlMem u [dsB, dsC] = urlMem u res') :=
  ⟨rfl, claim_C7_order_independent_keys [host1, host2] [host2, host1]
    [dsB, dsC] (List.Perm.swap host2 host1 []) rfl⟩

/-! ## Configuration reload (`ReloadConfiguration`)

The controller's shared state is the `common.Manager` it holds: the active
virtual-center endpoint config, the generic service config, the
volume-manager binding, and (through the virtual-center manager) the
registry of registered sessions. A reload attempt consults external
collaborators (config source, register/unregister calls) whose outcomes are
captured in a `ReloadEnv`. -/

structure Config where
  raw : String
  deriving DecidableEq

structure VirtualCenterConfig where
  host : String
  username : String
  password : String
  deriving DecidableEq

/-- A live backend session (a registered `VirtualCenter`); `generation`
distinguishes sessions produced by different (re-)registrations. -/
structure VcSession where
  sessionHost : String
  generation : Nat
  deriving DecidableEq

/-- Modelled from the spec: the session registry held by the virtual-center
manager (`cnsvsphere.VirtualCenterManager`, part of this repository but not
under the analyzed source file); it maps each registered host to its live
session, `RegisterVirtualCenter` adds an entry, and
`UnregisterAllVirtualCenters` deregisters every entry. -/
structure VirtualCenterManagerState where
  registered : List (String × VcSession)
  deriving DecidableEq

/-- The controller's `common.Manager`: the ServiceState shared by every
lifecycle call. The volume-manager handle is modelled by the session it is
bound to. -/
structure Manager where
  vcenterConfig : VirtualCenterConfig
  cnsConfig : Config
  volumeManager : VcSession
  vcenterManager : VirtualCenterManagerState
  deriving DecidableEq

/-- Outcomes of the external collaborators consulted by one reload attempt:
`common.GetConfig`, `cnsvsphere.GetVirtualCenterConfig`, and the
deregister/register calls against the virtual-center manager. -/
structure ReloadEnv where
  getConfigResult : Except String Config
  getVirtualCenterConfigResult : Except String VirtualCenterConfig
  unregisterOk : Bool
  registerResult : Option VcSession
  deriving DecidableEq

/-- Modelled from the spec: `VcenterManager.GetVirtualCenter` looks up (does
not re-register) the existing session for a host in the registry. -/
def getVirtualCenter (s : VirtualCenterManagerState) (host : String) :
    Option VcSession :=
  match s.registered.find? (fun p => p.1 == host) with
  | some p => some p.2
  | none => none

/-- Function `ReloadConfiguration`: read the new config; derive the new
virtual-center config; if host, username or password differ from the active
one, deregister all sessions and register a new one (aborting on failure of
either step, after the deregistration has already taken effect); otherwise
look up the existing session. On the surviving paths, rebind the volume
manager and publish the new endpoint config, then the new service config.
Every `return` of the source maps to returning the manager accumulated so
far. -/
def ReloadConfiguration (m : Manager) (env : ReloadEnv) : Manager :=
  match env.getConfigResult with
  | .error _ => m
  | .ok cfg =>
  match env.getVirtualCenterConfigResult with
  | .error _ => m
  | .ok newVCConfig =>
    if m.vcenterConfig.host ≠ newVCConfig.host ∨
        m.vcenterConfig.username ≠ newVCConfig.username ∨
        m.vcenterConfig.password ≠ newVCConfig.password then
      if env.unregisterOk then
        let m1 : Manager := { m with vcenterManager := { registered := [] } }
        match env.registerResult with
        | none => m1
        | some vcenter =>
          { m1 with
            vcenterManager := { registered := [(newVCConfig.host, vcenter)] },
            volumeManager := vcenter,
            vcenterConfig := newVCConfig,
            cnsConfig := cfg }
      else m
    else
      match getVirtualCenter m.vcenterManager newVCConfig.host with
      | none => m
      | some vcenter =>
        { m with
          volumeManager := vcenter,
          vcenterConfig := newVCConfig,
          cnsConfig := cfg }

/-- Modelled from the spec: a lifecycle call obtains its backend session by
looking the currently configured host up in the session registry
(`common.GetVCenter` over the manager). -/
def sessionUsedByLifecycle (m : Manager) : Option VcSession :=
  getVirtualCenter m.vcenterManager m.vcenterConfig.host

def sessionOld : VcSession := ⟨"vc-old.example.com", 0⟩

def managerC1 : Manager :=
  { vcenterConfig := ⟨"vc-old.example.com", "admin", "secret-1"⟩,
    cnsConfig := ⟨"cns-config-0"⟩,
    volumeManager := sessionOld,
    vcenterManager := ⟨[("vc-old.example.com", sessionOld)]⟩ }

/-- A reload attempt whose new endpoint config has a different host, whose
deregistration succeeds, and whose registration then fails. -/
def reloadEnvRegisterFails : ReloadEnv :=
  { getConfigResult := .ok ⟨"cns-config-1"⟩,
    getVirtualCenterConfigResult :=
      .ok ⟨"vc-new.example.com", "admin", "secret-1"⟩,
    unregisterOk := true,
    registerResult := none }

/-- C1 counterexample: with a changed host, a successful deregistration and
a failed registration, the reload does mutate the shared state: the session
registry is left empty, so a lifecycle call issued after the failed reload
no longer finds the previously active session (the claim says the old
session remains the one used). -/
theorem claim_C1_counterexample :
    sessionUsedByLifecycle managerC1 = some sessionOld ∧
    ReloadConfiguration managerC1 reloadEnvRegisterFails
      = { managerC1 with vcenterManager := { registered := [] } } ∧
    sessionUsedByLifecycle (ReloadConfiguration managerC1 reloadEnvRegisterFails)
      = none ∧
    decide (sessionUsedByLifecycle
        (ReloadConfiguration managerC1 reloadEnvRegisterFails)
      = sessionUsedByLifecycle managerC1) = false ∧
    decide (ReloadConfiguration managerC1 reloadEnvRegisterFails = managerC1)
      = false :=
  ⟨rfl, rfl, rfl, by decide, by decide⟩

/-- C1 (amended): on a reload whose new endpoint config differs in host,
username or password, the code deregisters all sessions and then registers a
new one. If the deregistration fails, the manager is left fully unchanged
(old session still used). If the registration fails after the successful
deregistration, the manager's endpoint config, service config and
volume-manager binding are unchanged, but the session registry has already
been emptied, so a subsequent lifecycle call finds no session at all (the
old session is no longer used). On success, the new session, endpoint
config and service config are published together. -/
theorem claim_C1_reload_aborts
    (m : Manager) (env : ReloadEnv) (cfg : Config)
    (nv : VirtualCenterConfig)
    (hcfg : env.getConfigResult = .ok cfg)
    (hvc : env.getVirtualCenterConfigResult = .ok nv)
    (hdiff : m.vcenterConfig.host ≠ nv.host ∨
      m.vcenterConfig.username ≠ nv.username ∨
      m.vcenterConfig.password ≠ nv.password) :
    (env.unregisterOk = false → ReloadConfiguration m env = m ∧
      sessionUsedByLifecycle (ReloadConfiguration m env)
        = sessionUsedByLifecycle m) ∧
    (env.unregisterOk = true → env.registerResult = none →
      ReloadConfiguration m env
          = { m with vcenterManager := { registered := [] } } ∧
        sessionUsedByLifecycle (ReloadConfiguration m env) = none) ∧
    (∀ s, env.unregisterOk = true → env.registerResult = some s →
      ReloadConfiguration m env
        = { vcenterConfig := nv, cnsConfig := cfg, volumeManager := s,
            vcenterManager := { registered := [(nv.host, s)] } }) := by
  refine ⟨?_, ?_, ?_⟩
  · intro hu
    have hm : ReloadConfiguration m env = m := by
      simp [ReloadConfiguration, hcfg, hvc, hdiff, hu]
    exact ⟨hm, by rw [hm]⟩
  · intro hu hr
    have hm : ReloadConfiguration m env
        = { m with vcenterManager := { registered := [] } } := by
      simp [ReloadConfiguration, hcfg, hvc, hdiff, hu, hr]
    refine ⟨hm, ?_⟩
    rw [hm]
    simp [sessionUsedByLifecycle, getVirtualCenter]
  · intro s hu hr
    simp [ReloadConfiguration, hcfg, hvc, hdiff, hu, hr]

/-- Witness for C1 (amended): concrete register-failure reload, evaluated on
the fixture manager. -/
theorem claim_C1_witness :
    reloadEnvRegisterFails.getConfigResult = .ok ⟨"cns-config-1"⟩ ∧
    reloadEnvRegisterFails.getVirtualCenterConfigResult
      = .ok ⟨"vc-new.example.com", "admin", "secret-1"⟩ ∧
    managerC1.vcenterConfig.host ≠ "vc-new.example.com" ∧
    (ReloadConfiguration managerC1 reloadEnvRegisterFails
        = { managerC1 with vcenterManager := { registered := [] } } ∧
      sessionUsedByLifecycle
        (ReloadConfiguration managerC1 reloadEnvRegisterFails) = none) :=
  ⟨rfl, rfl, by decide,
    (claim_C1_reload_aborts managerC1 reloadEnvRegisterFails
      ⟨"cns-config-1"⟩ ⟨"vc-new.example.com", "admin", "secret-1"⟩
      rfl rfl (Or.inl (by decide))).2.1 rfl rfl⟩

/-! ## CreateVolume: sizing and parameter scan -/

def DefaultGbDiskSize : Int := 10

def GbInBytes : Int := 1073741824

def MbInBytes : Int := 1048576

/-- Modelled from the spec: `common.RoundUpSize` (part of this repository
but not under the analyzed source file) rounds a byte count up to whole
allocation units. Go's `int64` division truncates toward zero
(`Int.tdiv`). -/
def RoundUpSize (volumeSizeBytes allocationUnitBytes : Int) : Int :=
  Int.tdiv (volumeSizeBytes + allocationUnitBytes - 1) allocationUnitBytes

/-- Modelled from the spec: the recognized request-parameter keys
(`common.AttributeStoragePolicyID`, `common.AttributeAffineToHost`). The
source compares them against `strings.ToLower` of the request key, so the
canonical constants are the lowercase key names. -/
def AttributeStoragePolicyID : String := "storagepolicyid"

def AttributeAffineToHost : String := "affinetohost"

/-- Modelled from the spec: fixed response-attribute key for the disk
type. -/
def AttributeDiskType : String := "type"

/-- Modelled from the spec: fixed attribute value marking a block-type
disk. -/
def DiskTypeBlockVolume : String := "vSphere CNS Block Volume"

/-- Modelled from the spec: fixed publish-attribute key for the
first-class-disk UUID. -/
def AttributeFirstClassDiskUUID : String := "diskUUID"

def BlockVolumeType : String := "BLOCK"

/-- Modelled from the spec: `common.FormatDiskUUID` renders the backend's
raw identifier in a canonical (lower-case) UUID string form; the exact
canonicalization is irrelevant to the claims. -/
def FormatDiskUUID (uuid : String) : String := uuid.toLower

structure CapacityRange where
  requiredBytes : Int
  deriving DecidableEq

structure CreateVolumeRequest where
  name : String
  capacityRange : Option CapacityRange
  parameters : List (String × String)
  deriving DecidableEq

/-- Go's `strings.ToLower` (its ASCII case fold, the relevant part for the
recognized keys), character by character over the string's contents. -/
def goToLower (s : String) : String :=
  String.mk (s.data.map Char.toLower)

/-- Go map read `m[k]`: the value bound to `k`, or the zero value `""` when
`k` is absent (map keys are unique, modelled as an association list). -/
def goMapGet (params : List (String × String)) (key : String) : String :=
  match params.find? (fun p => p.1 == key) with
  | some p => p.2
  | none => ""

/-- Size `volSizeBytes`: defaults to 10 GiB, overridden by `RequiredBytes` when
the capacity range is present and its required bytes are nonzero. -/
def volSizeBytesOf (req : CreateVolumeRequest) : Int :=
  match req.capacityRange with
  | some cr =>
    if cr.requiredBytes ≠ 0 then cr.requiredBytes
    else DefaultGbDiskSize * GbInBytes
  | none => DefaultGbDiskSize * GbInBytes

/-- The `for paramName := range req.Parameters` scan of the source, yielding
`(storagePolicyID, affineToHost)`: the lowered key is compared against the
canonical constants; on a storage-policy match the value is read at
`paramName`, while on an affinity match the value is read at the *constant*
key `common.AttributeAffineToHost`, exactly as in the source. -/
def scanCreateVolumeParams (params : List (String × String)) :
    String × String :=
  params.foldl
    (fun acc p =>
      if goToLower p.1 == AttributeStoragePolicyID then
        (goMapGet params p.1, acc.2)
      else if goToLower p.1 == AttributeAffineToHost then
        (acc.1, goMapGet params AttributeAffineToHost)
      else acc)
    ("", "")

structure CreateVolumeSpec where
  capacityMB : Int
  name : String
  storagePolicyID : String
  affineToHost : String
  volumeType : String
  deriving DecidableEq

/-- The `common.CreateVolumeSpec` assembled by `CreateVolume`. -/
def buildCreateVolumeSpec (req : CreateVolumeRequest) : CreateVolumeSpec :=
  { capacityMB := RoundUpSize (volSizeBytesOf req) MbInBytes,
    name := req.name,
    storagePolicyID := (scanCreateVolumeParams req.parameters).1,
    affineToHost := (scanCreateVolumeParams req.parameters).2,
    volumeType := BlockVolumeType }

/-- Caller-facing error classes: a validation failure is returned as-is,
everything else is wrapped as `codes.Internal`. -/
inductive CsiError
  | validation (e : String)
  | internal (msg : String)
  deriving DecidableEq

structure Volume where
  volumeId : String
  capacityBytes : Int
  volumeContext : List (String × String)
  deriving DecidableEq

/-- Function `CreateVolume`, parameterized over the outcomes of its collaborators:
the request validation, the shared-datastore resolution, and
`common.CreateBlockVolumeUtil`. -/
def CreateVolume (req : CreateVolumeRequest) (validationErr : Option String)
    (sharedDatastores : Except String (List DatastoreInfo))
    (createResult : Except String String) : Except CsiError Volume :=
  match validationErr with
  | some e => .error (.validation e)
  | none =>
    match sharedDatastores with
    | .error e =>
      .error (.internal ("failed to obtain shared datastores. Error: " ++ e))
    | .ok _ =>
      match createResult with
      | .error e =>
        .error (.internal ("failed to create volume. Error: " ++ e))
      | .ok volumeID =>
        .ok { volumeId := volumeID,
              capacityBytes :=
                (buildCreateVolumeSpec req).capacityMB * MbInBytes,
              volumeContext := [(AttributeDiskType, DiskTypeBlockVolume)] }

/-- C5 evidence (code bug): the storage-policy key is matched
case-insensitively and its value is read at the request's own key, but on an
affinity match the value is read at the lowercase *constant* key; so
`{"STORAGEPOLICYID": "p1"}` extracts `p1`, `{"affinetohost": "host-7"}`
extracts `host-7`, yet `{"AFFINETOHOST": "host-7"}` matches and still
yields the empty affinity hint, contradicting the claim (and the source's
own comment "Support case insensitive parameters"). Unrecognized keys are
ignored. -/
theorem claim_C5_param_scan :
    (buildCreateVolumeSpec
      { name := "pvc-2", capacityRange := none,
        parameters := [("STORAGEPOLICYID", "p1")] }).storagePolicyID = "p1" ∧
    (buildCreateVolumeSpec
      { name := "pvc-3", capacityRange := none,
        parameters := [("affinetohost", "host-7")] }).affineToHost
      = "host-7" ∧
    (buildCreateVolumeSpec
      { name := "pvc-4", capacityRange := none,
        parameters := [("AFFINETOHOST", "host-7")] }).affineToHost = "" ∧
    (buildCreateVolumeSpec
      { name := "pvc-5", capacityRange := none,
        parameters := [("zone", "us-1")] }).storagePolicyID = "" :=
  ⟨rfl, rfl, rfl, rfl⟩

/-- C6: the requested capacity defaults to 10 GiB (= 10240 MB) when the
capacity range is absent or its required bytes are zero; the byte count sent
downstream is rounded up to whole MB allocation units (the least multiple of
`MbInBytes` at or above the request); and the response's `CapacityBytes` is
the rounded MB value restated in bytes. -/
theorem claim_C6_capacity_rounding
    (req : CreateVolumeRequest) (sh : Except String (List DatastoreInfo))
    (cr : Except String String) (vol : Volume)
    (hok : CreateVolume req none sh cr = .ok vol) :
    ((req.capacityRange = none ∨
        ∃ c, req.capacityRange = some c ∧ c.requiredBytes = 0) →
      volSizeBytesOf req = DefaultGbDiskSize * GbInBytes ∧
      (buildCreateVolumeSpec req).capacityMB = 10240) ∧
    (0 ≤ volSizeBytesOf req →
      volSizeBytesOf req ≤ (buildCreateVolumeSpec req).capacityMB * MbInBytes
        ∧ (buildCreateVolumeSpec req).capacityMB * MbInBytes
          < volSizeBytesOf req + MbInBytes) ∧
    vol.capacityBytes = (buildCreateVolumeSpec req).capacityMB * MbInBytes
    := by
  refine ⟨?_, ?_, ?_⟩
  · intro hdef
    have hv : volSizeBytesOf req = DefaultGbDiskSize * GbInBytes := by
      rcases hdef with h | ⟨c, hc, hz⟩
      · simp [volSizeBytesOf, h]
      · simp [volSizeBytesOf, hc, hz]
    have h10240 : RoundUpSize (DefaultGbDiskSize * GbInBytes) MbInBytes
        = 10240 := by decide
    exact ⟨hv, by simp [buildCreateVolumeSpec, hv, h10240]⟩
  · intro hpos
    have hMB : (buildCreateVolumeSpec req).capacityMB
        = RoundUpSize (volSizeBytesOf req) MbInBytes := rfl
    rw [hMB]
    unfold RoundUpSize MbInBytes
    rw [Int.tdiv_eq_ediv (by omega) (by omega)]
    constructor <;> omega
  · cases sh with
    | error e => simp [CreateVolume] at hok
    | ok l =>
      cases cr with
      | error e => simp [CreateVolume] at hok
      | ok vid =>
        have hvol : Volume.mk vid
            ((buildCreateVolumeSpec req).capacityMB * MbInBytes)
            [(AttributeDiskType, DiskTypeBlockVolume)] = vol := by
          simpa [CreateVolume] using hok
        rw [← hvol]

def req6 : CreateVolumeRequest :=
  { name := "pvc-1", capacityRange := some ⟨5⟩, parameters := [] }

def req6d : CreateVolumeRequest :=
  { name := "pvc-1d", capacityRange := none, parameters := [] }

def vol6 : Volume :=
  { volumeId := "vol-1", capacityBytes := 1048576,
    volumeContext := [(AttributeDiskType, DiskTypeBlockVolume)] }

def vol6d : Volume :=
  { volumeId := "vol-2", capacityBytes := 10737418240,
    volumeContext := [(AttributeDiskType, DiskTypeBlockVolume)] }

/-- Witness for C6: a raw 5-byte request is rounded up to 1 MB and the
response restates 1048576 bytes (not 5); a request without a capacity range
defaults to 10 GiB (10240 MB, 10737418240 bytes). -/
theorem claim_C6_witness :
    (CreateVolume req6 none (.ok [dsA]) (.ok "vol-1") = .ok vol6 ∧
      (0 ≤ volSizeBytesOf req6 →
        volSizeBytesOf req6 ≤ (buildCreateVolumeSpec req6).capacityMB * MbInBytes
          ∧ (buildCreateVolumeSpec req6).capacityMB * MbInBytes
            < volSizeBytesOf req6 + MbInBytes) ∧
      vol6.capacityBytes = (buildCreateVolumeSpec req6).capacityMB * MbInBytes)
    ∧
    (CreateVolume req6d none (.ok [dsA]) (.ok "vol-2") = .ok vol6d ∧
      (volSizeBytesOf req6d = DefaultGbDiskSize * GbInBytes ∧
        (buildCreateVolumeSpec req6d).capacityMB = 10240)) :=
  ⟨⟨rfl,
    (claim_C6_capacity_rounding req6 (.ok [dsA]) (.ok "vol-1") vol6 rfl).2.1,
    (claim_C6_capacity_rounding req6 (.ok [dsA]) (.ok "vol-1") vol6 rfl).2.2⟩,
   ⟨rfl,
    (claim_C6_capacity_rounding req6d (.ok [dsA]) (.ok "vol-2") vol6d
      rfl).1 (Or.inl rfl)⟩⟩

/-! ## ControllerUnpublishVolume -/

structure ControllerUnpublishVolumeResponse where
  deriving DecidableEq

/-- Function `ControllerUnpublishVolume`: validate, then return the empty response.
The first component is the returned `(response, error)`; the second records
the detach actions performed against the backend (none exist in the source:
the verb is a validation-only pass-through). `attached` models whether some
earlier attach took place; the source never consults any such state. -/
def ControllerUnpublishVolume (validationErr : Option String)
    (attached : Bool) :
    Except String ControllerUnpublishVolumeResponse × List String :=
  match validationErr, attached with
  | some e, _ => (.error e, [])
  | none, _ => (.ok ⟨⟩, [])

/-- C9: a syntactically valid unpublish request returns success with the
empty response and performs no detach side effect, independent of prior
attach state; a validation failure is returned as-is, unwrapped; no detach
action is issued in either case. -/
theorem claim_C9_unpublish_noop
    (validationErr : Option String) (attached attached' : Bool) :
    (validationErr = none →
      ControllerUnpublishVolume validationErr attached = (.ok ⟨⟩, [])) ∧
    (ControllerUnpublishVolume validationErr attached).2 = [] ∧
    (∀ e, validationErr = some e →
      (ControllerUnpublishVolume validationErr attached).1 = .error e) ∧
    ControllerUnpublishVolume validationErr attached
      = ControllerUnpublishVolume validationErr attached' := by
  refine ⟨?_, ?_, ?_, ?_⟩
  · intro h
    subst h
    rfl
  · cases validationErr <;> rfl
  · intro e he
    subst he
    rfl
  · cases validationErr <;> rfl

/-- Witness for C9: valid request returns the empty response with no detach
action; an invalid one returns the validation error unwrapped; the result
does not depend on the ambient attach state. -/
theorem claim_C9_witness :
    ControllerUnpublishVolume none true = (.ok ⟨⟩, []) ∧
    (ControllerUnpublishVolume (some "bad request") true).1
      = .error "bad request" ∧
    ControllerUnpublishVolume none true
      = ControllerUnpublishVolume none false :=
  ⟨(claim_C9_unpublish_noop none true false).1 rfl,
   (claim_C9_unpublish_noop (some "bad request") true false).2.2.1
     "bad request" rfl,
   (claim_C9_unpublish_noop none true false).2.2.2⟩

/-! ## ControllerPublishVolume -/

structure VirtualCenter where
  configHost : String
  deriving DecidableEq

/-- Outcomes of the collaborators consulted by `ControllerPublishVolume`,
in call order: validation, the pod-listener vmuuid lookup, the
datacenter-map lookup from config, `VcenterManager.GetVirtualCenter`
(which, like the Go call, yields both a possibly-nil handle and a
possibly-nil error), `vc.Connect`, the VM lookup, and the attach itself. -/
structure PublishEnv where
  validationErr : Option String
  vmuuidResult : Except String String
  vcdcMapResult : Except String (List (String × String))
  getVirtualCenterResult : Option VirtualCenter × Option String
  connectErr : Option String
  getVMResult : Except String String
  attachResult : Except String String
  deriving DecidableEq

/-- Result of a publish call: success with the publish context, a
classified error, or a runtime nil-pointer dereference (the Go process
panics). -/
inductive PublishOutcome
  | ok (publishContext : List (String × String))
  | errorResult (e : CsiError)
  | panicNilDeref
  deriving DecidableEq

/-- Function `ControllerPublishVolume` step by step. In the branch where
`GetVirtualCenter` returned an error, the source formats the message with
`vc.Config.Host`; when the returned handle is nil this dereferences a nil
pointer, modelled by `.panicNilDeref`. (The later `vc.Connect` and its
error message would dereference a nil handle as well; with a non-nil error
contract that path cannot arise.) -/
def ControllerPublishVolume (env : PublishEnv) : PublishOutcome :=
  match env.validationErr with
  | some e => .errorResult (.validation e)
  | none =>
  match env.vmuuidResult with
  | .error e =>
    .errorResult (.internal
      ("failed to get the pod vmuuid annotation from the pod listener service. Error: "
        ++ e))
  | .ok vmuuid =>
  match env.vcdcMapResult with
  | .error e =>
    .errorResult (.internal
      ("failed to get datacenter from config with error: " ++ e))
  | .ok vcdcMap =>
    match env.getVirtualCenterResult with
    | (vcOpt, some e) =>
      match vcOpt with
      | none => .panicNilDeref
      | some vc =>
        .errorResult (.internal
          ("Cannot get virtual center " ++ vc.configHost
            ++ " from virtualcentermanager while attaching disk with error "
            ++ e))
    | (vcOpt, none) =>
      match vcOpt with
      | none => .panicNilDeref
      | some vc =>
        match env.connectErr with
        | some _ =>
          .errorResult (.internal
            ("failed to connect to Virtual Center: " ++ vc.configHost))
        | none =>
        match env.getVMResult with
        | .error e =>
          .errorResult (.internal
            ("failed to the PodVM Moref from the PodVM UUID: " ++ vmuuid
              ++ " in datacenter: "
              ++ (vcdcMap.foldl (fun _ p => p.2) "") ++ " with err: " ++ e))
        | .ok podVM =>
        match env.attachResult with
        | .error e =>
          .errorResult (.internal
            ("failed to attach volume to " ++ podVM ++ ". Error: " ++ e))
        | .ok diskUUID =>
          .ok [(AttributeDiskType, DiskTypeBlockVolume),
               (AttributeFirstClassDiskUUID, FormatDiskUUID diskUUID)]

/-- A publish attempt whose virtual-center lookup fails: no handle, an
error. -/
def publishEnvLookupFails : PublishEnv :=
  { validationErr := none,
    vmuuidResult := .ok "52a-vm-uuid",
    vcdcMapResult := .ok [("vc-old.example.com", "datacenter-2")],
    getVirtualCenterResult := (none, some "virtual center was not found"),
    connectErr := none,
    getVMResult := .ok "vm-42",
    attachResult := .ok "6000C29-disk" }

/-- C10 evidence (code bug): when the virtual-center lookup returns no
handle together with an error, the error branch formats its message from
`vc.Config.Host`, dereferencing the absent handle — the call panics instead
of returning the internal-class error the claim describes. -/
theorem claim_C10_nil_deref :
    ControllerPublishVolume publishEnvLookupFails = .panicNilDeref ∧
    decide (ControllerPublishVolume publishEnvLookupFails
      = .errorResult (.internal
        ("Cannot get virtual center " ++ "vc-old.example.com"
          ++ " from virtualcentermanager while attaching disk with error "
          ++ "virtual center was not found"))) = false :=
  ⟨rfl, by decide⟩

/-! ## Configuration watcher event loop -/

/-- fsnotify operation bitmask values (external fsnotify library):
Create, Write, Remove, Rename, Chmod. -/
def fsnotifyCreate : Nat := 1

def fsnotifyWrite : Nat := 2

def fsnotifyRemove : Nat := 4

def fsnotifyRename : Nat := 8

def fsnotifyChmod : Nat := 16

inductive WatchAction
  | reload
  deriving DecidableEq

/-- A message delivered to the watcher's `select`: an event (with the
channel-open flag `ok`) or an error-channel message. -/
inductive WatchMsg
  | event (op : Nat) (ok : Bool)
  | errmsg (ok : Bool)
  deriving DecidableEq

/-- The watcher goroutine's `for`/`select` loop from `Init`, over the
sequence of delivered messages: a closed events channel ends the loop; an
event whose `Op` has the `Remove` bit invokes `ReloadConfiguration` (the
emitted action) synchronously before the next message is examined; other
events only log; a closed error channel ends the loop, a transient error
message is logged and the loop continues. The result is the ordered trace
of reload invocations. -/
def watchLoop : List WatchMsg → List WatchAction
  | [] => []
  | .event op ok :: rest =>
    if ok then
      (if op &&& fsnotifyRemove == fsnotifyRemove then [.reload] else [])
        ++ watchLoop rest
    else []
  | .errmsg ok :: rest => if ok then watchLoop rest else []

/-- C8: a delivered event invokes the reload coordinator exactly once if
and only if its operation includes the Remove bit — such an event
contributes exactly one reload, ordered before everything produced by later
messages (the loop body runs the reload synchronously before the next
message); any event without the Remove bit (creation, write, chmod,
rename, ...) contributes none. -/
theorem claim_C8_watcher_remove_only (op : Nat) (rest : List WatchMsg) :
    (op &&& fsnotifyRemove = fsnotifyRemove →
      watchLoop (.event op true :: rest) = .reload :: watchLoop rest) ∧
    (op &&& fsnotifyRemove ≠ fsnotifyRemove →
      watchLoop (.event op true :: rest) = watchLoop rest) := by
  constructor
  · intro h
    have hb : (op &&& fsnotifyRemove == fsnotifyRemove) = true :=
      beq_iff_eq.mpr h
    simp [watchLoop, hb]
  · intro h
    have hb : (op &&& fsnotifyRemove == fsnotifyRemove) = false :=
      beq_eq_false_iff_ne.mpr h
    simp [watchLoop, hb]

/-- Witness for C8: a Remove event (even combined with Rename) triggers one
reload before the rest of the trace; Write and Chmod events trigger none. -/
theorem claim_C8_witness :
    (fsnotifyRemove &&& fsnotifyRemove = fsnotifyRemove ∧
      watchLoop [.event fsnotifyRemove true, .event fsnotifyWrite true]
        = [.reload]) ∧
    ((fsnotifyRemove ||| fsnotifyRename) &&& fsnotifyRemove
        = fsnotifyRemove ∧
      watchLoop [.event (fsnotifyRemove ||| fsnotifyRename) true]
        = [.reload]) ∧
    (fsnotifyWrite &&& fsnotifyRemove ≠ fsnotifyRemove ∧
      watchLoop [.event fsnotifyWrite true, .event fsnotifyChmod true]
        = []) :=
  ⟨⟨by decide,
    ((claim_C8_watcher_remove_only fsnotifyRemove
      [.event fsnotifyWrite true]).1 (by decide)).trans rfl⟩,
   ⟨by decide,
    ((claim_C8_watcher_remove_only (fsnotifyRemove ||| fsnotifyRename)
      []).1 (by decide)).trans rfl⟩,
   ⟨by decide,
    ((claim_C8_watcher_remove_only fsnotifyWrite
      [.event fsnotifyChmod true]).2 (by decide)).trans rfl⟩⟩

end WcpController
